import Mathlib

/-!
Shallow embedding of the organizer repository (models, services, storage) and
verification of the specification claims about it.

Python strings are modelled as lists of characters over the ASCII fragment the
application exercises; Python exceptions are modelled as an error type returned
through Except; in-place mutation of a collection is modelled by explicit state
passing; timestamps are abstract naturals supplied as a parameter wherever the
source calls datetime.now().
-/

/-- Python strings, modelled as lists of characters. -/
abbrev Str := List Char

/-- Python whitespace (ASCII fragment): the characters stripped by str.strip
and matched by the regex class for spaces. -/
def isPySpace (c : Char) : Bool :=
  c == ' ' || c == '\t' || c == '\n' || c == '\r' || c == '\x0b' || c == '\x0c'

/-- Python str.strip(): removes leading and trailing whitespace. -/
def pyStrip (s : Str) : Str :=
  ((s.dropWhile isPySpace).reverse.dropWhile isPySpace).reverse

/-- Python str.lower() on the ASCII fragment. -/
def lowerStr (s : Str) : Str := s.map Char.toLower

/-- Truthiness of a Python string: empty strings are falsy. -/
def strTruthy (s : Str) : Bool := !s.isEmpty

/-- Truthiness of an optional Python string: None and the empty string are falsy. -/
def optTruthy (s : Option Str) : Bool :=
  match s with
  | Option.none => false
  | some v => strTruthy v

/-- Word characters of the regex class \w (ASCII fragment): letters, digits and
the underscore. -/
def isWordChar (c : Char) : Bool := c.isAlphanum || c == '_'

/-- normalize_text from src/organizer/utils/validators.py: lowercases, then
re.sub deletes every run of non-word characters, keeping exactly the \w ones. -/
def normalize_text (s : Str) : Str := (lowerStr s).filter isWordChar

/-- Exception taxonomy of src/organizer/utils/exceptions.py together with the
built-in Python errors the embedded code paths can raise. -/
inductive PyErr where
  | validationError (msg : Str)
  | contactNotFoundError (name : Str)
  | noteNotFoundError (title : Str)
  | duplicateEntryError (entryType : Str) (identifier : Str)
  | valueError (msg : Str)
  | typeError (msg : Str)
  deriving Repr, DecidableEq

/-- Characters accepted by the phone regex: digits, plus, minus, parentheses
and whitespace. -/
def isPhoneChar (c : Char) : Bool :=
  c.isDigit || c == '+' || c == '-' || c == '(' || c == ')' || isPySpace c

/-- validate_phone from src/organizer/utils/validators.py: the string must be
non-empty and fully match the allowed-character pattern. -/
def validate_phone (phone : Str) : Except PyErr Str :=
  if !strTruthy phone || !(phone.all isPhoneChar) then
    Except.error (PyErr.validationError ("Invalid phone number format".toList))
  else Except.ok phone

/-- Modelled from the Python standard library: email.utils.parseaddr applied to
a plain address without display name, angle brackets or commas returns the
input itself as the addr part; only such inputs are exercised here. -/
def parseaddrAddr (s : Str) : Str := s

/-- Python addr.split at the at-sign, last component: the characters after the
last at-sign, or the whole string when none occurs. -/
def afterLastAt (s : Str) : Str := (s.reverse.takeWhile (fun c => c != '@')).reverse

/-- validate_email from src/organizer/utils/validators.py: requires a truthy
input whose addr part contains an at-sign and a dot after the last at-sign. -/
def validate_email (email : Str) : Except PyErr Str :=
  let addr := parseaddrAddr email
  if !strTruthy email || !(addr.contains '@') || !((afterLastAt addr).contains '.') then
    Except.error (PyErr.validationError ("Invalid email address format".toList))
  else Except.ok email

/-- Python str.capitalize(): first character uppercased, the rest lowercased. -/
def pyCapitalize (s : Str) : Str :=
  match s with
  | [] => []
  | c :: rest => c.toUpper :: rest.map Char.toLower

/-- capitalize_name from src/organizer/utils/validators.py. -/
def capitalize_name (name : Str) : Except PyErr Str :=
  if !strTruthy name || !strTruthy (pyStrip name) then
    Except.error (PyErr.validationError ("Name cannot be empty or None.".toList))
  else Except.ok (pyCapitalize (pyStrip name))

/-- Python datetime.date values (year, month, day), proleptic Gregorian. -/
structure PyDate where
  year : Nat
  month : Nat
  day : Nat
  deriving Repr, DecidableEq

def isLeapYear (y : Nat) : Bool := (y % 4 == 0 && y % 100 != 0) || y % 400 == 0

def daysInMonth (y : Nat) (m : Nat) : Nat :=
  if m == 2 then (if isLeapYear y then 29 else 28)
  else if m == 4 || m == 6 || m == 9 || m == 11 then 30
  else 31

/-- date.replace with a new year raises ValueError exactly when the day does
not exist in the target year (Feb 29 in a non-leap year); modelled as Option. -/
def PyDate.replaceYear (d : PyDate) (y : Nat) : Option PyDate :=
  if d.day ≤ daysInMonth y d.month then some { d with year := y } else Option.none

def daysBeforeMonth (y : Nat) (m : Nat) : Nat :=
  (List.range (m - 1)).foldl (fun acc i => acc + daysInMonth y (i + 1)) 0

def leapsBefore (y : Nat) : Nat := (y - 1) / 4 - (y - 1) / 100 + (y - 1) / 400

/-- Serial day number of a date (date.toordinal in Python); differences of
serial numbers give the day count of a timedelta. -/
def PyDate.toOrdinal (d : PyDate) : Nat :=
  365 * (d.year - 1) + leapsBefore d.year + daysBeforeMonth d.year d.month + d.day

/-- Day difference of two dates, as Python computes (a - b).days. -/
def dateSubDays (a b : PyDate) : Int := (a.toOrdinal : Int) - (b.toOrdinal : Int)

/-- Contact record from src/organizer/models/contact.py. -/
structure Contact where
  name : Str
  last_name : Option Str := Option.none
  company : Option Str := Option.none
  phone : Option Str := Option.none
  address : Option Str := Option.none
  birthday : Option PyDate := Option.none
  email : Option Str := Option.none
  last_modified : Nat := 0
  deriving Repr, DecidableEq

/-- Contact dataclass construction. The dataclass stores the given fields and
then __post_init__ validates and normalizes them in source order and finally
calls update_modified_time unconditionally, so the stored last_modified is the
construction time now and the last_modified argument is discarded. -/
def mkContact (name : Str) (last_name : Option Str) (company : Option Str)
    (phone : Option Str) (address : Option Str) (birthday : Option PyDate)
    (email : Option Str) (last_modified : Nat) (now : Nat) : Except PyErr Contact :=
  if !strTruthy name || !strTruthy (pyStrip name) then
    Except.error (PyErr.validationError ("Contact name cannot be empty or None.".toList))
  else do
    let nm ← capitalize_name (pyStrip name)
    let ln ← (match last_name with
      | Option.none => pure (Option.none : Option Str)
      | some l =>
        if strTruthy l then (capitalize_name (pyStrip l)).map (fun x => some x)
        else pure (Option.none : Option Str))
    let ph ← (match phone with
      | Option.none => pure (Option.none : Option Str)
      | some p =>
        if strTruthy p then (validate_phone p).map (fun x => some x)
        else pure (Option.none : Option Str))
    let em ← (match email with
      | Option.none => pure (Option.none : Option Str)
      | some e =>
        if strTruthy e then (validate_email e).map (fun x => some x)
        else pure (Option.none : Option Str))
    let ad := (match address with
      | Option.none => (Option.none : Option Str)
      | some a => if strTruthy a then some (pyStrip a) else Option.none)
    let co := (match company with
      | Option.none => (Option.none : Option Str)
      | some a => if strTruthy a then some (pyStrip a) else Option.none)
    let _ := last_modified
    Except.ok { name := nm, last_name := ln, company := co, phone := ph, address := ad,
                birthday := birthday, email := em, last_modified := now }

/-- Helper for Python expressions of the shape (field or empty string). -/
def orEmpty (s : Option Str) : Str :=
  match s with
  | some v => v
  | Option.none => []

/-- Contact.full_name: name and last_name joined by a space, stripped. -/
def Contact.full_name (c : Contact) : Str := pyStrip (c.name ++ [ ' ' ] ++ orEmpty c.last_name)

/-- AddressBook state: the ordered list self._contacts. The save callback is a
side effect outside the collection state and is not modelled. -/
structure AddressBook where
  contacts : List Contact
  deriving Repr, DecidableEq

/-- Duplicate scan of AddressBook.add: some existing contact has the same
stripped-lowercased name, and the new contact has the same truthy phone or the
same truthy email as that contact. -/
def dupScan (nameNorm : Str) (c : Contact) : List Contact → Bool
  | [] => false
  | e :: rest =>
    if lowerStr (pyStrip e.name) == nameNorm
        && ((optTruthy c.phone && c.phone == e.phone)
            || (optTruthy c.email && c.email == e.email)) then true
    else dupScan nameNorm c rest

/-- AddressBook.add. When a duplicate is detected the source executes a raise
of DuplicateEntryError with a single argument, but its constructor requires the
two positional arguments entry_type and identifier, so Python raises TypeError
at that point instead of the intended exception; the embedding returns that
TypeError. -/
def AddressBook.add (book : AddressBook) (contact : Contact) (now : Nat)
    (preserve_modified_time : Bool) : Except PyErr AddressBook :=
  if !strTruthy contact.name || !strTruthy (pyStrip contact.name) then
    Except.error (PyErr.validationError ("Contact name cannot be empty or None.".toList))
  else if dupScan (lowerStr (pyStrip contact.name)) contact book.contacts then
    Except.error (PyErr.typeError
      ("DuplicateEntryError init missing 1 required positional argument: identifier".toList))
  else
    let c := if preserve_modified_time then contact else { contact with last_modified := now }
    Except.ok { contacts := book.contacts ++ [c] }

/-- AddressBook.get: all contacts whose normalized name equals the normalized
argument; ContactNotFoundError when none match. -/
def AddressBook.get (book : AddressBook) (name : Str) : Except PyErr (List Contact) :=
  let key := normalize_text name
  let results := book.contacts.filter (fun c => normalize_text c.name == key)
  if results.isEmpty then Except.error (PyErr.contactNotFoundError name) else Except.ok results

/-- AddressBook.delete: removes every contact whose normalized name matches;
ContactNotFoundError when nothing was removed. -/
def AddressBook.delete (book : AddressBook) (name : Str) :
    (Except PyErr Bool) × AddressBook :=
  let remaining := book.contacts.filter (fun c => !(normalize_text c.name == normalize_text name))
  if remaining.length == book.contacts.length then
    (Except.error (PyErr.contactNotFoundError name), book)
  else (Except.ok true, { contacts := remaining })

/-- Field updates passed to AddressBook.edit. Python passes a dict from field
names to values; the embedding types the recognized pairs, covering
string-or-None values for the string fields and date-or-None for birthday. A
truthy non-date birthday value, which the code rejects, and an unrecognized
field name, which the loop silently skips, get their own constructors. -/
inductive FieldUpd where
  | fName (v : Option Str)
  | fLastName (v : Option Str)
  | fCompany (v : Option Str)
  | fPhone (v : Option Str)
  | fAddress (v : Option Str)
  | fEmail (v : Option Str)
  | fBirthday (v : Option PyDate)
  | fBirthdayBad
  | fOther (fieldName : Str)
  deriving Repr, DecidableEq

/-- One iteration of the field loop of AddressBook.edit, mutating the matched
contact. -/
def applyField (c : Contact) : FieldUpd → Except PyErr Contact
  | FieldUpd.fName v =>
    if !optTruthy v || !strTruthy (pyStrip (v.getD [])) then
      Except.error (PyErr.validationError ("Name cannot be empty.".toList))
    else (capitalize_name (v.getD [])).map (fun n => { c with name := n })
  | FieldUpd.fLastName v =>
    if optTruthy v then (capitalize_name (v.getD [])).map (fun n => { c with last_name := some n })
    else Except.ok { c with last_name := Option.none }
  | FieldUpd.fCompany v =>
    Except.ok { c with company := if optTruthy v then v else Option.none }
  | FieldUpd.fPhone v =>
    if optTruthy v then (validate_phone (v.getD [])).map (fun p => { c with phone := some p })
    else Except.ok { c with phone := Option.none }
  | FieldUpd.fAddress v =>
    Except.ok { c with address := if optTruthy v then v else Option.none }
  | FieldUpd.fEmail v =>
    if optTruthy v then (validate_email (v.getD [])).map (fun e => { c with email := some e })
    else Except.ok { c with email := Option.none }
  | FieldUpd.fBirthday v => Except.ok { c with birthday := v }
  | FieldUpd.fBirthdayBad =>
    Except.error (PyErr.validationError ("Birthday must be a date object.".toList))
  | FieldUpd.fOther _ => Except.ok c

/-- The field loop of AddressBook.edit applied in order. Python mutates the
contact object in place, so when a later field raises, the updates already
applied stay; the partially updated contact is returned with the error. -/
def applyFields (c : Contact) : List FieldUpd → (Option PyErr) × Contact
  | [] => (Option.none, c)
  | u :: rest =>
    match applyField c u with
    | Except.ok cNew => applyFields cNew rest
    | Except.error e => (some e, c)

/-- The contact scan of AddressBook.edit: the first contact whose normalized
name matches the key is updated in place; an in-loop exception leaves the
partial updates in the list; no match raises ContactNotFoundError. -/
def editContacts (origName : Str) (key : Str) (upd : List FieldUpd) (now : Nat) :
    List Contact → (Except PyErr Bool) × List Contact
  | [] => (Except.error (PyErr.contactNotFoundError origName), [])
  | c :: rest =>
    if normalize_text c.name == key then
      match applyFields c upd with
      | (some e, cPart) => (Except.error e, cPart :: rest)
      | (Option.none, cNew) => (Except.ok true, { cNew with last_modified := now } :: rest)
    else
      let tail := editContacts origName key upd now rest
      (tail.1, c :: tail.2)

/-- AddressBook.edit, returning the outcome together with the collection state
after the call (unchanged on no match, partially updated when a field raises). -/
def AddressBook.edit (book : AddressBook) (name : Str) (upd : List FieldUpd) (now : Nat) :
    (Except PyErr Bool) × AddressBook :=
  let res := editContacts name (normalize_text name) upd now book.contacts
  (res.1, { contacts := res.2 })

def natToChars (n : Nat) : Str := Nat.toDigits 10 n

def pad2 (n : Nat) : Str := if n < 10 then '0' :: natToChars n else natToChars n

/-- birthday.strftime with a day-month-year format, as used by the contact
search (years below 1000 are not exercised). -/
def dateDMY (d : PyDate) : Str :=
  pad2 d.day ++ [ '-' ] ++ pad2 d.month ++ [ '-' ] ++ natToChars d.year

/-- Python space.join over a list of strings. -/
def joinSpace : List Str → Str
  | [] => []
  | [s] => s
  | s :: rest => s ++ [ ' ' ] ++ joinSpace rest

/-- The concatenation AddressBook.search builds for one contact. -/
def contactCombined (c : Contact) : Str :=
  joinSpace [ c.name, orEmpty c.last_name, orEmpty c.company, orEmpty c.phone,
    orEmpty c.address, orEmpty c.email,
    (match c.birthday with | some b => dateDMY b | Option.none => []) ]

/-- Python substring membership: needle in hay. -/
def strIn (needle hay : Str) : Bool := decide (needle <:+: hay)

/-- AddressBook.search: contacts whose normalized combined fields contain the
normalized query. -/
def AddressBook.search (book : AddressBook) (query : Str) : List Contact :=
  book.contacts.filter (fun c => strIn (normalize_text query) (normalize_text (contactCombined c)))

/-- AddressBook.all. -/
def AddressBook.allContacts (book : AddressBook) : List Contact := book.contacts

/-- Case-insensitive full-name sort key of AddressBook.sort. -/
def contactNameKey (c : Contact) : Str := lowerStr c.full_name

/-- Comparison used for sort by name: ascending in the lowercased full name. -/
def nameLe (a b : Contact) : Prop := contactNameKey a ≤ contactNameKey b

/-- Comparison used for sort by updated: descending in last_modified. -/
def updatedGe (a b : Contact) : Prop := b.last_modified ≤ a.last_modified

instance : DecidableRel nameLe :=
  fun a b => inferInstanceAs (Decidable (contactNameKey a ≤ contactNameKey b))

instance : DecidableRel updatedGe :=
  fun a b => inferInstanceAs (Decidable (b.last_modified ≤ a.last_modified))

instance : IsTotal Contact nameLe := ⟨fun a b => le_total (contactNameKey a) (contactNameKey b)⟩

instance : IsTrans Contact nameLe := ⟨fun _ _ _ h1 h2 => le_trans h1 h2⟩

instance : IsTotal Contact updatedGe := ⟨fun a b => le_total b.last_modified a.last_modified⟩

instance : IsTrans Contact updatedGe := ⟨fun _ _ _ h1 h2 => le_trans h2 h1⟩

/-- AddressBook.sort: Python sorted is a stable sort by the extracted key;
insertion sort with the corresponding total preorder models it. Unsupported
keys raise ValueError. -/
def AddressBook.sort (book : AddressBook) (key : Str) : Except PyErr (List Contact) :=
  if key == ("name".toList) then Except.ok (book.contacts.insertionSort nameLe)
  else if key == ("updated".toList) then Except.ok (book.contacts.insertionSort updatedGe)
  else Except.error (PyErr.valueError ("Unsupported sort key. Use name or updated.".toList))

/-- AddressBook.sort as a state-passing operation: Python sorted builds a new
list and self._contacts is never reassigned or mutated by the method, so the
state component is returned unchanged. -/
def AddressBook.sortOp (book : AddressBook) (key : Str) :
    (Except PyErr (List Contact)) × AddressBook := (book.sort key, book)

/-- The loop of AddressBook.get_upcoming_birthdays: recompute each birthday in
the year of today, skip the contact when date.replace raises ValueError, and
keep it when the day difference lies between 0 and days. -/
def upcomingLoop (today : PyDate) (days : Nat) : List Contact → List Contact
  | [] => []
  | c :: rest =>
    match c.birthday with
    | Option.none => upcomingLoop today days rest
    | some b =>
      match b.replaceYear today.year with
      | Option.none => upcomingLoop today days rest
      | some bty =>
        if 0 ≤ dateSubDays bty today ∧ dateSubDays bty today ≤ (days : Int) then
          c :: upcomingLoop today days rest
        else upcomingLoop today days rest

/-- AddressBook.get_upcoming_birthdays, with today passed explicitly where the
source reads date.today(). -/
def AddressBook.get_upcoming_birthdays (book : AddressBook) (days : Nat) (today : PyDate) :
    List Contact := upcomingLoop today days book.contacts

/-- Predicate stated from the claim text, for comparison with the loop: the
contact has a birthday, its recomputation in the year of today is
representable, and the day difference from today lies in the closed interval
from 0 to days. -/
def upcomingSpec (today : PyDate) (days : Nat) (c : Contact) : Bool :=
  match c.birthday with
  | Option.none => false
  | some b =>
    match b.replaceYear today.year with
    | Option.none => false
    | some bty => decide (0 ≤ dateSubDays bty today ∧ dateSubDays bty today ≤ (days : Int))

/-- Note record from src/organizer/models/note.py. -/
structure Note where
  title : Str
  text : Str
  tags : List Str
  last_modified : Nat
  deriving Repr, DecidableEq

/-- Note construction: rejects an empty or whitespace-only title, strips the
title, defaults text and tags ((value or default) coincides with getD here),
and stamps last_modified with the construction time. The tags list is stored
as given, without any per-tag validation. -/
def mkNote (title : Str) (text : Option Str) (tags : Option (List Str)) (now : Nat) :
    Except PyErr Note :=
  if !strTruthy title || !strTruthy (pyStrip title) then
    Except.error (PyErr.validationError ("Note title cannot be empty.".toList))
  else
    Except.ok { title := pyStrip title, text := text.getD [], tags := tags.getD [],
                last_modified := now }

/-- Note.update: replaces only the provided fields, re-validating a provided
title before any assignment, and refreshes last_modified. -/
def Note.update (n : Note) (title : Option Str) (text : Option Str)
    (tags : Option (List Str)) (now : Nat) : Except PyErr Note :=
  match title with
  | some t =>
    if !strTruthy (pyStrip t) then
      Except.error (PyErr.validationError ("Note title cannot be empty.".toList))
    else
      let n1 : Note := { n with title := pyStrip t }
      let n2 : Note := (match text with | some tx => { n1 with text := tx } | Option.none => n1)
      let n3 : Note := (match tags with | some tg => { n2 with tags := tg } | Option.none => n2)
      Except.ok { n3 with last_modified := now }
  | Option.none =>
    let n2 : Note := (match text with | some tx => { n with text := tx } | Option.none => n)
    let n3 : Note := (match tags with | some tg => { n2 with tags := tg } | Option.none => n2)
    Except.ok { n3 with last_modified := now }

/-- Note.add_tag: rejects a tag that is empty after stripping (the isinstance
check is discharged by the Str type), appends the stripped tag and refreshes
last_modified. -/
def Note.add_tag (n : Note) (tag : Str) (now : Nat) : Except PyErr Note :=
  if !strTruthy (pyStrip tag) then
    Except.error (PyErr.validationError ("Tag must be a non-empty string.".toList))
  else Except.ok { n with tags := n.tags ++ [pyStrip tag], last_modified := now }

/-- Notebook state: the ordered list self._notes. -/
structure Notebook where
  notes : List Note
  deriving Repr, DecidableEq

/-- Notebook.add: rejects an empty title and an exact duplicate title (the
None check is discharged by the Note type). -/
def Notebook.add (nb : Notebook) (note : Note) : Except PyErr Notebook :=
  if !strTruthy note.title || !strTruthy (pyStrip note.title) then
    Except.error (PyErr.validationError ("Note title cannot be empty.".toList))
  else if nb.notes.any (fun n => n.title == note.title) then
    Except.error (PyErr.duplicateEntryError ("Duplicate note title".toList) note.title)
  else Except.ok { notes := nb.notes ++ [note] }

/-- Notebook.get: exact title match on the first matching note. -/
def Notebook.get (nb : Notebook) (title : Str) : Except PyErr Note :=
  match nb.notes.find? (fun n => n.title == title) with
  | some n => Except.ok n
  | Option.none => Except.error (PyErr.noteNotFoundError title)

/-- Removal of the first note with an exactly matching title, when one exists. -/
def deleteFirstNote (title : Str) : List Note → Option (List Note)
  | [] => Option.none
  | n :: rest =>
    if n.title == title then some rest
    else (deleteFirstNote title rest).map (fun l => n :: l)

/-- Notebook.delete: deletes the first note with an exactly matching title;
NoteNotFoundError leaves the state unchanged. -/
def Notebook.delete (nb : Notebook) (title : Str) : (Except PyErr Bool) × Notebook :=
  match deleteFirstNote title nb.notes with
  | some l => (Except.ok true, { notes := l })
  | Option.none => (Except.error (PyErr.noteNotFoundError title), nb)

/-- Field updates passed to Notebook.edit. A tags value that is not a list
(None included) makes the code store the empty list, so the Option models it;
an unrecognized field name is silently skipped by the loop. -/
inductive NFieldUpd where
  | nTitle (v : Option Str)
  | nText (v : Option Str)
  | nTags (v : Option (List Str))
  | nOther (fieldName : Str)
  deriving Repr, DecidableEq

/-- One iteration of the field loop of Notebook.edit. -/
def applyNoteField (n : Note) : NFieldUpd → Except PyErr Note
  | NFieldUpd.nTitle v =>
    if !optTruthy v || !strTruthy (pyStrip (v.getD [])) then
      Except.error (PyErr.validationError ("Title cannot be empty.".toList))
    else Except.ok { n with title := pyStrip (v.getD []) }
  | NFieldUpd.nText v =>
    Except.ok { n with text := if optTruthy v then v.getD [] else [] }
  | NFieldUpd.nTags v => Except.ok { n with tags := v.getD [] }
  | NFieldUpd.nOther _ => Except.ok n

/-- The field loop of Notebook.edit applied in order, keeping partial updates
when a later field raises, as the in-place mutation does. -/
def applyNoteFields (n : Note) : List NFieldUpd → (Option PyErr) × Note
  | [] => (Option.none, n)
  | u :: rest =>
    match applyNoteField n u with
    | Except.ok nNew => applyNoteFields nNew rest
    | Except.error e => (some e, n)

/-- The note scan of Notebook.edit: the first note whose normalized title
matches the normalized argument is updated in place. -/
def editNotes (origTitle : Str) (key : Str) (upd : List NFieldUpd) (now : Nat) :
    List Note → (Except PyErr Bool) × List Note
  | [] => (Except.error (PyErr.noteNotFoundError origTitle), [])
  | n :: rest =>
    if normalize_text n.title == key then
      match applyNoteFields n upd with
      | (some e, nPart) => (Except.error e, nPart :: rest)
      | (Option.none, nNew) => (Except.ok true, { nNew with last_modified := now } :: rest)
    else
      let tail := editNotes origTitle key upd now rest
      (tail.1, n :: tail.2)

/-- Notebook.edit, returning the outcome together with the collection state
after the call. Unlike Notebook.get and Notebook.delete, the lookup key is the
normalized title. -/
def Notebook.edit (nb : Notebook) (title : Str) (upd : List NFieldUpd) (now : Nat) :
    (Except PyErr Bool) × Notebook :=
  let res := editNotes title (normalize_text title) upd now nb.notes
  (res.1, { notes := res.2 })

/-- The concatenation Notebook.search builds for one note: title, text (or
empty) and the space-joined tags, separated by single spaces. -/
def noteCombined (n : Note) : Str :=
  n.title ++ [ ' ' ] ++ (if strTruthy n.text then n.text else []) ++ [ ' ' ] ++ joinSpace n.tags

/-- Notebook.search: case-insensitive substring match against the combined
title, text and tags. -/
def Notebook.search (nb : Notebook) (query : Str) : List Note :=
  nb.notes.filter (fun n => strIn (lowerStr query) (lowerStr (noteCombined n)))

/-- Notebook.all. -/
def Notebook.allNotes (nb : Notebook) : List Note := nb.notes

/-- Comparison used for sorted by title: ascending in the lowercased title. -/
def titleLe (a b : Note) : Prop := lowerStr a.title ≤ lowerStr b.title

/-- Comparison used for sorted by last_modified: descending. -/
def noteUpdGe (a b : Note) : Prop := b.last_modified ≤ a.last_modified

instance : DecidableRel titleLe :=
  fun a b => inferInstanceAs (Decidable (lowerStr a.title ≤ lowerStr b.title))

instance : DecidableRel noteUpdGe :=
  fun a b => inferInstanceAs (Decidable (b.last_modified ≤ a.last_modified))

instance : IsTotal Note titleLe := ⟨fun a b => le_total (lowerStr a.title) (lowerStr b.title)⟩

instance : IsTrans Note titleLe := ⟨fun _ _ _ h1 h2 => le_trans h1 h2⟩

instance : IsTotal Note noteUpdGe := ⟨fun a b => le_total b.last_modified a.last_modified⟩

instance : IsTrans Note noteUpdGe := ⟨fun _ _ _ h1 h2 => le_trans h2 h1⟩

/-- Notebook.sorted: stable sort by the extracted key; unsupported keys raise
ValueError. -/
def Notebook.sorted (nb : Notebook) (key : Str) : Except PyErr (List Note) :=
  if key == ("title".toList) then Except.ok (nb.notes.insertionSort titleLe)
  else if key == ("last_modified".toList) then Except.ok (nb.notes.insertionSort noteUpdGe)
  else Except.error (PyErr.valueError ("Unsupported sort key. Use title or last_modified.".toList))

/-- Notebook.sorted as a state-passing operation: Python sorted builds a new
list and self._notes is untouched, so the state component is unchanged. -/
def Notebook.sortedOp (nb : Notebook) (key : Str) :
    (Except PyErr (List Note)) × Notebook := (nb.sorted key, nb)

/-- Serialized form of one contact, as written by JSONStorage._contact_to_dict;
dates and timestamps pass through isoformat and fromisoformat, which are
mutually inverse and therefore modelled as identities on the embedded values. -/
structure ContactDict where
  name : Str
  last_name : Option Str
  company : Option Str
  phone : Option Str
  address : Option Str
  birthday : Option PyDate
  email : Option Str
  last_modified : Nat
  deriving Repr, DecidableEq

/-- JSONStorage._contact_to_dict. -/
def contact_to_dict (c : Contact) : ContactDict :=
  { name := c.name, last_name := c.last_name, company := c.company, phone := c.phone,
    address := c.address, birthday := c.birthday, email := c.email,
    last_modified := c.last_modified }

/-- JSONStorage._dict_to_contact: rebuilds the contact through the dataclass
constructor, whose post-init re-stamps last_modified with the current time
now, discarding the stored timestamp. -/
def dict_to_contact (d : ContactDict) (now : Nat) : Except PyErr Contact :=
  mkContact d.name d.last_name d.company d.phone d.address d.birthday d.email
    d.last_modified now

/-- JSONStorage.save_addressbook: the sequence of serialized contacts. -/
def save_addressbook (book : AddressBook) : List ContactDict :=
  book.contacts.map contact_to_dict

/-- JSONStorage.load_addressbook: rebuilds each contact and appends it through
AddressBook.add, which is called without the preserve flag. -/
def load_addressbook (data : List ContactDict) (now : Nat) : Except PyErr AddressBook :=
  data.foldlM (fun book entry => do
    let c ← dict_to_contact entry now
    book.add c now false) { contacts := [] }

/-- Serialized form of one note, as written by JSONStorage._note_to_dict. -/
structure NoteDict where
  title : Str
  text : Str
  tags : List Str
  last_modified : Nat
  deriving Repr, DecidableEq

/-- JSONStorage._note_to_dict. -/
def note_to_dict (n : Note) : NoteDict :=
  { title := n.title, text := n.text, tags := n.tags, last_modified := n.last_modified }

/-- JSONStorage._dict_to_note: constructs the note (stamping the current time)
and then overwrites last_modified with the stored value. -/
def dict_to_note (d : NoteDict) (now : Nat) : Except PyErr Note :=
  (mkNote d.title (some d.text) (some d.tags) now).map
    (fun n => { n with last_modified := d.last_modified })

/-- JSONStorage.save_notebook. -/
def save_notebook (nb : Notebook) : List NoteDict := nb.notes.map note_to_dict

/-- JSONStorage.load_notebook. -/
def load_notebook (data : List NoteDict) (now : Nat) : Except PyErr Notebook :=
  data.foldlM (fun nb entry => do
    let n ← dict_to_note entry now
    nb.add n) { notes := [] }

deriving instance DecidableEq for Except

theorem toLower_fix (a : Char) : Char.toLower (Char.toLower a) = Char.toLower a := by
  unfold Char.toLower
  by_cases h : a.toNat ≥ 65 ∧ a.toNat ≤ 90
  · simp only [if_pos h]
    obtain ⟨h1, h2⟩ := h
    set n := a.toNat with hn
    interval_cases n <;> decide
  · simp only [if_neg h]

theorem strIn_nil (hay : Str) : strIn [] hay = true := by
  simp only [strIn, decide_eq_true_eq]
  exact ⟨[], hay, rfl⟩

/-- C1: evaluating AddressBook.add at the failing input. The book already
holds a contact named Alice with phone 123; adding another contact with the
same name and phone reaches the duplicate branch, where the single-argument
construction of DuplicateEntryError (whose initializer requires entry_type and
identifier) makes Python raise TypeError instead of DuplicateEntryError. -/
theorem claim_C1_bug :
    AddressBook.add { contacts := [ { name := ("Alice".toList), phone := some ("123".toList),
                                      last_modified := 1 } ] }
        { name := ("Alice".toList), phone := some ("123".toList), last_modified := 2 } 3 false =
      Except.error (PyErr.typeError
        ("DuplicateEntryError init missing 1 required positional argument: identifier".toList)) := by
  decide

/-- C3 (counterexample): normalize_text keeps the underscore, which is not
alphanumeric, so the result is not always confined to lowercase letters and
digits as the claim states. -/
theorem claim_C3_counterexample :
    normalize_text [ '_' ] = [ '_' ] ∧ ('_'.isAlphanum) = false := by decide

/-- C3 (amended): normalize_text lowercases and removes every character that is
not a word character (letters, digits, underscore): every character of the
output is a word character fixed by lowercasing, hence lies in the set of
lowercase letters, digits and the underscore; and normalize_text identifies
OBrien written with an apostrophe (character 39) with obrien. -/
theorem claim_C3_amended :
    (∀ (s : Str) (c : Char), c ∈ normalize_text s →
      isWordChar c = true ∧ Char.toLower c = c) ∧
    normalize_text [ 'O', Char.ofNat 39, 'B', 'r', 'i', 'e', 'n' ] =
      normalize_text ("obrien".toList) := by
  constructor
  · intro s c hc
    unfold normalize_text at hc
    obtain ⟨hmem, hword⟩ := List.mem_filter.mp hc
    refine ⟨hword, ?_⟩
    unfold lowerStr at hmem
    obtain ⟨a, _, rfl⟩ := List.mem_map.mp hmem
    exact toLower_fix a
  · decide

/-- C3 (amended, witness): the underscore is in the output of normalize_text
on the underscore string, and the theorem applies to it. -/
theorem claim_C3_witness : isWordChar '_' = true ∧ Char.toLower '_' = '_' :=
  claim_C3_amended.1 [ '_' ] '_' (by decide)

/-- C4: the persistence round-trip re-stamps a contact's last_modified. A book
holding one contact stamped 100 is saved and loaded at time 200: the loaded
collection carries 200, because the dataclass post-init unconditionally calls
update_modified_time and load_addressbook calls add without the preserve flag,
although the spec and the repository's own test expect 100 preserved. -/
theorem claim_C4_bug :
    (load_addressbook
        (save_addressbook { contacts := [ { name := ("Alice".toList), last_modified := 100 } ] })
        200).map (fun b => b.contacts.map Contact.last_modified) = Except.ok [200] ∧
    (100 : Nat) ≠ 200 := by decide

/-- C5 (counterexample): Note construction stores the given tags list without
per-tag validation, so a list holding the empty string is stored as is and the
stored tag is an empty string. -/
theorem claim_C5_counterexample :
    (mkNote ("t".toList) Option.none (some [ [] ]) 0).map Note.tags = Except.ok [ [] ] ∧
    strTruthy ([] : Str) = false := by decide

/-- C5 (amended): only add_tag guarantees tag non-emptiness: when every stored
tag of a note is non-empty, the note produced by a successful add_tag again
has only non-empty tags (the appended tag is stripped and non-empty); Note
construction, Note.update and Notebook.edit store the caller's list unchecked. -/
theorem claim_C5_amended (n : Note) (tag : Str) (now : Nat) (nNew : Note)
    (hok : n.add_tag tag now = Except.ok nNew)
    (hinv : n.tags.all strTruthy = true) : nNew.tags.all strTruthy = true := by
  unfold Note.add_tag at hok
  by_cases h : strTruthy (pyStrip tag) = true
  · rw [h] at hok
    simp only [Bool.not_true, Bool.false_eq_true, if_false] at hok
    injection hok with hok
    subst hok
    simp [List.all_append, hinv, h]
  · rw [Bool.not_eq_true] at h
    rw [h] at hok
    simp at hok

/-- C5 (amended, witness): a concrete application of the add_tag preservation
theorem. -/
theorem claim_C5_witness :
    ({ title := [ 'x' ], text := [], tags := [ [ 'y' ], [ 'a' ] ], last_modified := 1 : Note}).tags.all
      strTruthy = true :=
  claim_C5_amended { title := [ 'x' ], text := [], tags := [ [ 'y' ] ], last_modified := 0 }
    ([ 'a' ]) 1 _ (by decide) (by decide)

/-- C8: the empty query normalizes to the empty string, which is a substring of
every string, so search returns every record of the collection in stored
order, for the address book and for the notebook. -/
theorem claim_C8 :
    (∀ book : AddressBook, book.search [] = book.contacts) ∧
    (∀ nb : Notebook, nb.search [] = nb.notes) := by
  constructor
  · intro book
    exact List.filter_eq_self.mpr (fun c _ => strIn_nil _)
  · intro nb
    exact List.filter_eq_self.mpr (fun n _ => strIn_nil _)

/-- C9: on a notebook holding a note titled Shopping, edit addressed with the
lowercase title shopping succeeds (the edit lookup normalizes titles), while
get and delete with the same argument fail with NoteNotFoundError (their
lookups compare titles exactly). -/
theorem claim_C9 :
    (Notebook.edit { notes := [ { title := ("Shopping".toList), text := ("Buy milk".toList),
                                  tags := [], last_modified := 1 } ] }
        ("shopping".toList) [NFieldUpd.nText (some ("x".toList))] 2).1 = Except.ok true ∧
    Notebook.get { notes := [ { title := ("Shopping".toList), text := ("Buy milk".toList),
                                tags := [], last_modified := 1 } ] }
        ("shopping".toList) = Except.error (PyErr.noteNotFoundError ("shopping".toList)) ∧
    (Notebook.delete { notes := [ { title := ("Shopping".toList), text := ("Buy milk".toList),
                                    tags := [], last_modified := 1 } ] }
        ("shopping".toList)).1 = Except.error (PyErr.noteNotFoundError ("shopping".toList)) := by
  decide

theorem editContacts_nomatch (origName key : Str) (upd : List FieldUpd) (now : Nat)
    (l : List Contact)
    (h : l.all (fun c => !(normalize_text c.name == key)) = true) :
    editContacts origName key upd now l =
      (Except.error (PyErr.contactNotFoundError origName), l) := by
  induction l with
  | nil => rfl
  | cons c rest ih =>
    simp only [List.all_cons, Bool.and_eq_true, Bool.not_eq_eq_eq_not, Bool.not_true] at h
    obtain ⟨h1, h2⟩ := h
    unfold editContacts
    rw [h1]
    simp only [Bool.false_eq_true, if_false]
    rw [ih (by simpa using h2)]

theorem editNotes_nomatch (origTitle key : Str) (upd : List NFieldUpd) (now : Nat)
    (l : List Note)
    (h : l.all (fun n => !(normalize_text n.title == key)) = true) :
    editNotes origTitle key upd now l =
      (Except.error (PyErr.noteNotFoundError origTitle), l) := by
  induction l with
  | nil => rfl
  | cons n rest ih =>
    simp only [List.all_cons, Bool.and_eq_true, Bool.not_eq_eq_eq_not, Bool.not_true] at h
    obtain ⟨h1, h2⟩ := h
    unfold editNotes
    rw [h1]
    simp only [Bool.false_eq_true, if_false]
    rw [ih (by simpa using h2)]

/-- C2 (counterexample): edit is not atomic under a mid-mapping validation
error. On a book holding one contact named Alice, editing Alice with a mapping
that sets a valid name Bob and then an invalid email raises ValidationError,
yet the collection observed afterwards differs from the original: the name
update has been applied. -/
theorem claim_C2_counterexample :
    (AddressBook.edit { contacts := [ { name := ("Alice".toList), last_modified := 1 } ] }
        ("Alice".toList)
        [FieldUpd.fName (some ("Bob".toList)), FieldUpd.fEmail (some ("bad".toList))] 2).1 =
      Except.error (PyErr.validationError ("Invalid email address format".toList)) ∧
    (AddressBook.edit { contacts := [ { name := ("Alice".toList), last_modified := 1 } ] }
        ("Alice".toList)
        [FieldUpd.fName (some ("Bob".toList)), FieldUpd.fEmail (some ("bad".toList))] 2).2 ≠
      { contacts := [ { name := ("Alice".toList), last_modified := 1 } ] } := by
  decide

/-- C2 (amended): the NotFound half of the atomicity claim holds: when no
stored contact (note) has a matching normalized name (title), edit fails with
ContactNotFoundError (NoteNotFoundError) and the collection is unchanged; when
a validation error is raised partway through the field mapping, however, the
updates already applied to the matched record persist. -/
theorem claim_C2_amended :
    (∀ (book : AddressBook) (name : Str) (upd : List FieldUpd) (now : Nat),
      book.contacts.all (fun c => !(normalize_text c.name == normalize_text name)) = true →
      book.edit name upd now = (Except.error (PyErr.contactNotFoundError name), book)) ∧
    (∀ (nb : Notebook) (title : Str) (upd : List NFieldUpd) (now : Nat),
      nb.notes.all (fun n => !(normalize_text n.title == normalize_text title)) = true →
      nb.edit title upd now = (Except.error (PyErr.noteNotFoundError title), nb)) := by
  constructor
  · intro book name upd now h
    unfold AddressBook.edit
    rw [editContacts_nomatch _ _ _ _ _ h]
  · intro nb title upd now h
    unfold Notebook.edit
    rw [editNotes_nomatch _ _ _ _ _ h]

/-- C2 (amended, witness): a concrete instance of the NotFound case for both
collections. -/
theorem claim_C2_witness :
    AddressBook.edit { contacts := [ { name := ("Alice".toList), last_modified := 1 } ] }
        ("Zoe".toList) [] 9 =
      (Except.error (PyErr.contactNotFoundError ("Zoe".toList)),
        { contacts := [ { name := ("Alice".toList), last_modified := 1 } ] }) ∧
    Notebook.edit { notes := [ { title := ("Shopping".toList), text := [], tags := [],
                                 last_modified := 1 } ] }
        ("Work".toList) [] 9 =
      (Except.error (PyErr.noteNotFoundError ("Work".toList)),
        { notes := [ { title := ("Shopping".toList), text := [], tags := [],
                       last_modified := 1 } ] }) :=
  ⟨claim_C2_amended.1 _ _ [] 9 (by decide), claim_C2_amended.2 _ _ [] 9 (by decide)⟩

theorem upcomingLoop_eq_filter (today : PyDate) (days : Nat) (l : List Contact) :
    upcomingLoop today days l = l.filter (upcomingSpec today days) := by
  induction l with
  | nil => rfl
  | cons c rest ih =>
    rw [List.filter_cons]
    unfold upcomingLoop
    cases hb : c.birthday with
    | none => simp [upcomingSpec, hb, ih]
    | some b =>
      cases hr : b.replaceYear today.year with
      | none => simp [upcomingSpec, hb, hr, ih]
      | some bty =>
        by_cases hd : 0 ≤ dateSubDays bty today ∧ dateSubDays bty today ≤ (days : Int)
        · simp [upcomingSpec, hb, hr, hd, ih]
        · simp [upcomingSpec, hb, hr, hd, ih]

/-- C6: get_upcoming_birthdays returns exactly the contacts passing the claim
predicate (birthday present, recomputation in the year of today representable,
day difference in the closed interval from 0 to days), in stored order; and in
the concrete scenario with today 2024-06-01 and window 7, the contact born
1990-06-05 is returned while the contact born 1990-06-10 is not. -/
theorem claim_C6 :
    (∀ (book : AddressBook) (days : Nat) (today : PyDate),
      book.get_upcoming_birthdays days today = book.contacts.filter (upcomingSpec today days)) ∧
    AddressBook.get_upcoming_birthdays
        { contacts := [ { name := ("May".toList), birthday := some ⟨1990, 6, 5⟩,
                          last_modified := 0 },
                        { name := ("Jun".toList), birthday := some ⟨1990, 6, 10⟩,
                          last_modified := 0 } ] } 7 ⟨2024, 6, 1⟩ =
      [ { name := ("May".toList), birthday := some ⟨1990, 6, 5⟩, last_modified := 0 } ] := by
  constructor
  · intro book days today
    exact upcomingLoop_eq_filter today days book.contacts
  · decide

theorem sort_updated_eq (book : AddressBook) :
    book.sort ("updated".toList) = Except.ok (book.contacts.insertionSort updatedGe) := rfl

theorem sort_name_eq (book : AddressBook) :
    book.sort ("name".toList) = Except.ok (book.contacts.insertionSort nameLe) := rfl

/-- C7: sort by updated yields the contacts in non-increasing last_modified
order and is a permutation of the stored collection; sort by name yields them
ascending in the case-insensitive full name, again a permutation; any other
key fails with ValueError. -/
theorem claim_C7 (book : AddressBook) :
    (∀ l, book.sort ("updated".toList) = Except.ok l →
      List.Sorted updatedGe l ∧ l.Perm book.contacts) ∧
    (∀ l, book.sort ("name".toList) = Except.ok l →
      List.Sorted nameLe l ∧ l.Perm book.contacts) ∧
    (∀ key : Str, key ≠ ("name".toList) → key ≠ ("updated".toList) →
      book.sort key =
        Except.error (PyErr.valueError ("Unsupported sort key. Use name or updated.".toList))) := by
  refine ⟨?_, ?_, ?_⟩
  · intro l hl
    rw [sort_updated_eq] at hl
    injection hl with hl
    subst hl
    exact ⟨List.sorted_insertionSort updatedGe book.contacts,
      List.perm_insertionSort updatedGe book.contacts⟩
  · intro l hl
    rw [sort_name_eq] at hl
    injection hl with hl
    subst hl
    exact ⟨List.sorted_insertionSort nameLe book.contacts,
      List.perm_insertionSort nameLe book.contacts⟩
  · intro key h1 h2
    unfold AddressBook.sort
    rw [if_neg (by simpa using h1), if_neg (by simpa using h2)]

/-- C7 (witness): on a concrete two-contact book, sort by updated returns the
later-modified contact first, and a made-up key fails with ValueError. -/
theorem claim_C7_witness :
    (List.Sorted updatedGe
        [ { name := ("B".toList), last_modified := 5 : Contact },
          { name := ("A".toList), last_modified := 1 : Contact } ] ∧
      List.Perm
        [ { name := ("B".toList), last_modified := 5 : Contact },
          { name := ("A".toList), last_modified := 1 : Contact } ]
        [ { name := ("A".toList), last_modified := 1 : Contact },
          { name := ("B".toList), last_modified := 5 : Contact } ]) ∧
    AddressBook.sort
        { contacts := [ { name := ("A".toList), last_modified := 1 },
                        { name := ("B".toList), last_modified := 5 } ] } ([ 'x' ]) =
      Except.error (PyErr.valueError ("Unsupported sort key. Use name or updated.".toList)) :=
  ⟨(claim_C7 { contacts := [ { name := ("A".toList), last_modified := 1 },
                             { name := ("B".toList), last_modified := 5 } ] }).1 _ rfl,
   (claim_C7 { contacts := [ { name := ("A".toList), last_modified := 1 },
                             { name := ("B".toList), last_modified := 5 } ] }).2.2
     ([ 'x' ]) (by decide) (by decide)⟩

/-- C10: sorting is read-only. As a state-passing operation, sort (and the
notebook sorted) returns the collection state unchanged, so all() afterwards
yields the same records in the same insertion order; the returned list is a
fresh permutation of the stored records, not the stored list mutated. -/
theorem claim_C10 :
    (∀ (book : AddressBook) (key : Str) (l : List Contact),
      (book.sortOp key).2 = book ∧
      ((book.sortOp key).1 = Except.ok l → l.Perm book.contacts)) ∧
    (∀ (nb : Notebook) (key : Str) (l : List Note),
      (nb.sortedOp key).2 = nb ∧
      ((nb.sortedOp key).1 = Except.ok l → l.Perm nb.notes)) := by
  constructor
  · intro book key l
    refine ⟨rfl, ?_⟩
    intro hl
    unfold AddressBook.sortOp AddressBook.sort at hl
    by_cases h1 : (key == ("name".toList)) = true
    · rw [if_pos h1] at hl
      injection hl with hl
      subst hl
      exact List.perm_insertionSort nameLe book.contacts
    · rw [if_neg h1] at hl
      by_cases h2 : (key == ("updated".toList)) = true
      · rw [if_pos h2] at hl
        injection hl with hl
        subst hl
        exact List.perm_insertionSort updatedGe book.contacts
      · rw [if_neg h2] at hl
        exact absurd hl (by simp)
  · intro nb key l
    refine ⟨rfl, ?_⟩
    intro hl
    unfold Notebook.sortedOp Notebook.sorted at hl
    by_cases h1 : (key == ("title".toList)) = true
    · rw [if_pos h1] at hl
      injection hl with hl
      subst hl
      exact List.perm_insertionSort titleLe nb.notes
    · rw [if_neg h1] at hl
      by_cases h2 : (key == ("last_modified".toList)) = true
      · rw [if_pos h2] at hl
        injection hl with hl
        subst hl
        exact List.perm_insertionSort noteUpdGe nb.notes
      · rw [if_neg h2] at hl
        exact absurd hl (by simp)

/-- C10 (witness): concrete instances for both collections. -/
theorem claim_C10_witness :
    ((AddressBook.sortOp { contacts := [ { name := ("A".toList), last_modified := 1 },
                                         { name := ("B".toList), last_modified := 5 } ] }
        ("updated".toList)).2 =
      { contacts := [ { name := ("A".toList), last_modified := 1 },
                      { name := ("B".toList), last_modified := 5 } ] } ∧
      List.Perm
        [ { name := ("B".toList), last_modified := 5 : Contact },
          { name := ("A".toList), last_modified := 1 : Contact } ]
        [ { name := ("A".toList), last_modified := 1 : Contact },
          { name := ("B".toList), last_modified := 5 : Contact } ]) ∧
    ((Notebook.sortedOp { notes := [ { title := ("b".toList), text := [], tags := [],
                                       last_modified := 1 } ] } ("title".toList)).2 =
      { notes := [ { title := ("b".toList), text := [], tags := [], last_modified := 1 } ] } ∧
      List.Perm [ { title := ("b".toList), text := [], tags := [], last_modified := 1 : Note } ]
        [ { title := ("b".toList), text := [], tags := [], last_modified := 1 : Note } ]) :=
  by
  refine ⟨⟨?_, ?_⟩, ⟨?_, ?_⟩⟩
  · exact (claim_C10.1 _ ("updated".toList) []).1
  · exact (claim_C10.1 _ ("updated".toList)
      [ { name := ("B".toList), last_modified := 5 : Contact },
        { name := ("A".toList), last_modified := 1 : Contact } ]).2 rfl
  · exact (claim_C10.2 _ ("title".toList) []).1
  · exact (claim_C10.2 _ ("title".toList)
      [ { title := ("b".toList), text := [], tags := [], last_modified := 1 : Note } ]).2 rfl
